import Mathlib

/-!
Shallow embedding of the CoAlign belief-confidence decision hook and the
concept-annotation layer, together with theorems checking the repository's
specification against the code.

Sources embedded:
* `src/habitat_llm/planner/belief_hooks.py` (`BeliefMetrics`,
  `choose_belief_action`),
* `src/habitat_llm/perception/concept_mapping.py`
  (`map_detection_to_concepts`),
* `src/scripts/visualize_belief_divergence.py` (`_iter_json_records` and the
  record-collection part of `main`),
* the world-graph concept layer exercised by
  `src/habitat_llm/tests/test_concept_layer.py` (its implementation file is
  not part of the provided sources, so it is modelled from the spec).

Modelling conventions:
* Python floats are modelled as rationals (`ℚ`); none of the checked claims
  depends on binary floating-point rounding.
* A Python configuration dict is an association list from `String` to
  `ConfVal`; `ConfVal` covers the value shapes the hook can observe
  (booleans, numbers, strings, `None`), and Python truthiness is `ConfVal.truthy`.
* `f-string` formatting with two decimal places is modelled by `fmt2`.
-/

/-- A value stored in the decision configuration mapping.  Mirrors the
Python value shapes relevant to the hook: booleans, numbers (floats and
ints collapse to `ℚ`), strings, and `None` (`ConfVal.null`). -/
inductive ConfVal where
  | bool (b : Bool)
  | num (q : ℚ)
  | str (s : String)
  | null
deriving DecidableEq

/-- A decision configuration: a finite mapping of named options, as the
Python dict passed to `choose_belief_action`. -/
abbrev Config := List (String × ConfVal)

/-- Python truthiness of a stored configuration value: `bool(x)`. -/
def ConfVal.truthy : ConfVal → Bool
  | .bool b => b
  | .num q => decide (q ≠ 0)
  | .str s => decide (s ≠ "")
  | .null => false

/-- Python `dict.get(key)` with no default: the first binding for `key`, if any. -/
def cfgGet (c : Config) (k : String) : Option ConfVal :=
  c.lookup k

/-- Python `bool(dict.get(key, default))` with a boolean default: the truthiness of
the stored value when the key is present, else the default.  This is how the
hook reads `cbwm_enabled` and `l2d_action_enabled`. -/
def cfgTruthy (c : Config) (k : String) (d : Bool) : Bool :=
  match cfgGet c k with
  | Option.none => d
  | Option.some v => v.truthy

/-- Numeric read `dict.get(key, default)` as used for the thresholds.  A
stored number is returned as-is; a stored Python bool is the number 0 or 1.
A stored string or `None` would make the subsequent `>=` comparison raise a
`TypeError` in Python; no checked claim exercises that, and the embedding
returns the default there. -/
def cfgNum (c : Config) (k : String) (d : ℚ) : ℚ :=
  match cfgGet c k with
  | Option.some (ConfVal.num q) => q
  | Option.some (ConfVal.bool b) => if b then 1 else 0
  | _ => d

/-- String read `dict.get(key, default)` as used for
`divergence_metric_type`.  No checked claim stores a non-string there; the
embedding returns the default for non-string stored values. -/
def cfgStr (c : Config) (k : String) (d : String) : String :=
  match cfgGet c k with
  | Option.some (ConfVal.str s) => s
  | Option.some _ => d
  | Option.none => d

/-- Raw read `dict.get(key, default)`: the stored value itself when present
(whatever its shape), else the default.  This is how the hook reads the
action-name options, which it returns unexamined. -/
def cfgVal (c : Config) (k : String) (d : ConfVal) : ConfVal :=
  match cfgGet c k with
  | Option.none => d
  | Option.some v => v

/-- The `BeliefMetrics` dataclass from `belief_hooks.py`: an immutable snapshot
of belief health. -/
structure BeliefMetrics where
  avg_concept_confidence : ℚ := 1
  belief_divergence : ℚ := 0
  divergence_metrics : Option (List (String × ℚ)) := Option.none
  note : String := ""
deriving DecidableEq

/-- Method get_divergence of BeliefMetrics: the scalar `belief_divergence` wins for
the name `"belief_divergence"`; otherwise a present named metric is
returned (the Python guard `if self.divergence_metrics and ...` treats an
empty dict as absent); otherwise fall back to the scalar. -/
def BeliefMetrics.get_divergence (m : BeliefMetrics) (metric_type : String) : ℚ :=
  if metric_type = "belief_divergence" then
    m.belief_divergence
  else
    match m.divergence_metrics with
    | Option.some dm =>
        if dm = [] then m.belief_divergence
        else
          match dm.lookup metric_type with
          | Option.some v => v
          | Option.none => m.belief_divergence
    | Option.none => m.belief_divergence

/-- Multiplication on `ℚ` computed through `mkRat`, so that concrete runs
of the hook reduce inside the kernel; `ratMul_eq` identifies it with `*`. -/
def ratMul (a b : ℚ) : ℚ :=
  mkRat (a.num * b.num) (a.den * b.den)

/-- Python `f"{x:.2f}"` on the rational model of a float: fixed-point with
two decimal digits, rounding to the nearest hundredth.  The rounded integer
`⌊100 q + 1/2⌋` is computed as `(200 num + den).fdiv (2 den)`. -/
def fmt2 (q : ℚ) : String :=
  let n : ℤ := Int.fdiv (200 * q.num + (q.den : ℤ)) (2 * (q.den : ℤ))
  let sign := if n < 0 then "-" else ""
  let a := n.natAbs
  let r := a % 100
  sign ++ toString (a / 100) ++ "." ++ (if r < 10 then "0" else "") ++ toString r

/-- The resolved `divergence_metric_type` option (default
`"belief_divergence"`). -/
def divergenceMetricType (c : Config) : String :=
  cfgStr c "divergence_metric_type" "belief_divergence"

/-- The divergence score the hook acts on:
`metrics.get_divergence(divergence_metric_type)`. -/
def activeDivergence (c : Config) (m : BeliefMetrics) : ℚ :=
  m.get_divergence (divergenceMetricType c)

/-- The resolved `divergence_threshold` option (default 0.3). -/
def divThreshold (c : Config) : ℚ :=
  cfgNum c "divergence_threshold" (mkRat 3 10)

/-- The resolved `correction_divergence_threshold` option (default
`divergence_threshold * 1.5`). -/
def correctionThreshold (c : Config) : ℚ :=
  cfgNum c "correction_divergence_threshold" (ratMul (divThreshold c) (mkRat 3 2))

/-- The resolved `concept_confidence_threshold` option (default 0.5). -/
def confidenceThreshold (c : Config) : ℚ :=
  cfgNum c "concept_confidence_threshold" (mkRat 1 2)

/-- The resolved `l2d_divergence_threshold` option (default
`divergence_threshold * 0.5`). -/
def l2dThreshold (c : Config) : ℚ :=
  cfgNum c "l2d_divergence_threshold" (ratMul (divThreshold c) (mkRat 1 2))

/-- The resolved `l2d_action_enabled` option (default false, read with
Python truthiness). -/
def l2dEnabled (c : Config) : Bool :=
  cfgTruthy c "l2d_action_enabled" false

/-- Reason string of the correction branch, exactly as formatted in the
source. -/
def reasonCorrection (name : String) (d t : ℚ) : String :=
  "Belief divergence (" ++ name ++ ") " ++ fmt2 d ++
    " exceeds correction threshold " ++ fmt2 t ++ "."

/-- Reason string of the low-confidence branch, exactly as formatted in the
source. -/
def reasonLowConfidence (conf t : ℚ) : String :=
  "Average concept confidence " ++ fmt2 conf ++ " is below threshold " ++
    fmt2 t ++ "."

/-- Reason string of the look-to-disambiguate branch, exactly as formatted
in the source. -/
def reasonL2d (name : String) (d t : ℚ) : String :=
  "Divergence (" ++ name ++ ") " ++ fmt2 d ++ " exceeds L2D threshold " ++
    fmt2 t ++ "."

/-- Reason string of the high-divergence branch, exactly as formatted in
the source. -/
def reasonHighDivergence (name : String) (d t : ℚ) : String :=
  "Belief divergence (" ++ name ++ ") " ++ fmt2 d ++ " exceeds threshold " ++
    fmt2 t ++ "."

/-- Function `choose_belief_action` from `belief_hooks.py`.  Returns the optional
action (the stored configuration value, a string by default) and a reason
string.  The first component is `Option ConfVal` because Python returns the
configured action object unexamined. -/
def choose_belief_action (decision_conf : Option Config) (metrics : BeliefMetrics) :
    Option ConfVal × String :=
  match decision_conf with
  | Option.none => (Option.none, "")
  | Option.some conf =>
    if cfgTruthy conf "cbwm_enabled" true = false then
      (Option.none, "CBWM hooks disabled.")
    else
      if activeDivergence conf metrics ≥ correctionThreshold conf then
        (Option.some (cfgVal conf "correction_action" (ConfVal.str "CorrectHuman")),
         reasonCorrection (divergenceMetricType conf) (activeDivergence conf metrics)
           (correctionThreshold conf))
      else if metrics.avg_concept_confidence < confidenceThreshold conf then
        (Option.some (cfgVal conf "low_confidence_action" (ConfVal.str "AppendObservation")),
         reasonLowConfidence metrics.avg_concept_confidence (confidenceThreshold conf))
      else if l2dEnabled conf = true ∧ activeDivergence conf metrics ≥ l2dThreshold conf then
        (Option.some (cfgVal conf "l2d_action" (ConfVal.str "LookToDisambiguate")),
         reasonL2d (divergenceMetricType conf) (activeDivergence conf metrics)
           (l2dThreshold conf))
      else if activeDivergence conf metrics ≥ divThreshold conf then
        (Option.some (cfgVal conf "high_divergence_action" (ConfVal.str "AskHuman")),
         reasonHighDivergence (divergenceMetricType conf) (activeDivergence conf metrics)
           (divThreshold conf))
      else
        (Option.none, metrics.note)

/-- Function `map_detection_to_concepts` from `concept_mapping.py`.  The external
`MetadataInterface` collaborator only contributes its `lexicon`, modelled as
the list of known semantic types; `metadata = none` is Python
`metadata=None`. -/
def map_detection_to_concepts (detected_type : Option String)
    (metadata : Option (List String)) : List String × List ℚ :=
  match detected_type with
  | Option.none => ([], [])
  | Option.some t =>
    let labels : List String := [t]
    let confidences : List ℚ := [1]
    match metadata with
    | Option.some lexicon =>
        if t ∈ lexicon then (labels, confidences)
        else (labels ++ ["unknown"], confidences ++ [mkRat 1 10])
    | Option.none => (labels, confidences)

/-- Modelled from the spec: a world-graph `Concept` node
(`habitat_llm/world_model/entity.py` is not among the provided sources).
Per the spec there is exactly one Concept node per annotated entity, so a
Concept node is addressed by the name of the entity it describes. -/
structure ConceptNode where
  entity_name : String
deriving DecidableEq

/-- Modelled from the spec: a world-graph object entity with its
`properties` mapping restricted to the two concept-annotation keys
(`concept_labels`, `concept_confidence`), absent before the first
annotation. -/
structure ObjEntity where
  name : String
  concept_labels : Option (List String)
  concept_confidence : Option (List ℚ)
deriving DecidableEq

/-- Modelled from the spec: the slice of `WorldGraph`
(`habitat_llm/world_model/world_graph.py`, not among the provided sources)
that carries the concept layer: object entities, Concept nodes, and labeled
directed edges `(source concept, target entity name, label)`. -/
structure WorldGraph where
  objects : List ObjEntity
  concepts : List ConceptNode
  edges : List (ConceptNode × String × String)
deriving DecidableEq

/-- Modelled from the spec: the per-object property write of
`add_or_update_concept_annotation` — overwrite the two concept keys of the
entity named `n` and leave every other entity untouched. -/
def annotateObj (n : String) (labels : List String) (confidences : List ℚ)
    (o : ObjEntity) : ObjEntity :=
  if o.name = n then
    { o with concept_labels := Option.some labels,
             concept_confidence := Option.some confidences }
  else o

/-- Modelled from the spec: the `add_or_update_concept_annotation` method of `WorldGraph`.
Overwrites the entity's `concept_labels`/`concept_confidence` properties
with the arguments, creates the entity's Concept node and its single
`"describes"` edge on first annotation, reuses them afterwards, and returns
the Concept node. -/
def add_or_update_concept_annotation (g : WorldGraph) (n : String)
    (labels : List String) (confidences : List ℚ) : WorldGraph × ConceptNode :=
  let c : ConceptNode := ⟨n⟩
  let objects := g.objects.map (annotateObj n labels confidences)
  if c ∈ g.concepts then
    ({ g with objects := objects }, c)
  else
    ({ objects := objects,
       concepts := g.concepts ++ [c],
       edges := g.edges ++ [(c, n, "describes")] }, c)

/-- Well-formedness of the concept layer: Concept nodes are not duplicated
and the edge set is exactly one `"describes"` edge from each Concept node
to its entity. -/
def WGWf (g : WorldGraph) : Prop :=
  g.concepts.Nodup ∧
    g.edges = g.concepts.map fun c => (c, c.entity_name, "describes")

/-- Python `str.strip()` on the model: drop whitespace from both ends,
written with structural recursion so concrete runs reduce. -/
def pyStrip (s : String) : String :=
  String.mk (((s.data.dropWhile fun c => c.isWhitespace).reverse.dropWhile
    fun c => c.isWhitespace).reverse)

/-- A JSON value as far as the log reader's control flow observes it: a
dict (with an opaque payload standing for its items), a list, or any other
JSON value.  The reader never looks inside dicts. -/
inductive JVal where
  | dict (payload : String)
  | list (items : List JVal)
  | other

/-- Records yielded from a whole-file payload in `_iter_json_records`: the
dict items of a list payload, a dict payload itself, and nothing for any
other payload shape. -/
def extract_payload : JVal → List JVal
  | JVal.list items => items.filter fun it =>
      match it with
      | JVal.dict _ => true
      | _ => false
  | JVal.dict p => [JVal.dict p]
  | JVal.other => []

/-- Per-line loop of `_iter_json_records` on one file.  `parse` stands for
`json.loads` (`Option.none` = `json.JSONDecodeError`), `whole` for the full
file text re-read by the whole-file retry.  On a line whose stripped text
fails to parse, the code runs `f.seek(0); json.load(f)`-style retry: since
`json.load` first reads the stream to its end, a failed retry leaves the
file iterator at end-of-file and the `for line in f` loop terminates, and a
successful retry yields the payload's records and then executes `break`. -/
def iterGo (parse : String → Option JVal) (whole : String) :
    List String → List JVal
  | [] => []
  | line :: rest =>
    let s := pyStrip line
    if s = "" then iterGo parse whole rest
    else
      match parse s with
      | Option.some v => v :: iterGo parse whole rest
      | Option.none =>
        match parse whole with
        | Option.some payload => extract_payload payload
        | Option.none => []

/-- The function `_iter_json_records` restricted to a single file, as a function of the
file's lines and full text. -/
def iter_file_records (parse : String → Option JVal) (lines : List String)
    (whole : String) : List JVal :=
  iterGo parse whole lines

/-- All records collected by `main` from the collected files (each file
given as its lines paired with its full text). -/
def collect_records (parse : String → Option JVal)
    (files : List (List String × String)) : List JVal :=
  files.flatMap fun f => iter_file_records parse f.1 f.2

/-- The record-collection part of `main` in
`visualize_belief_divergence.py`: no files is a `FileNotFoundError`, no
readable records is a `ValueError`, otherwise the records are handed to the
plotting code. -/
def main_collect (parse : String → Option JVal)
    (files : List (List String × String)) : Except String (List JVal) :=
  if files.isEmpty then
    Except.error "No JSON/JSONL logs found"
  else
    let records := collect_records parse files
    if records.isEmpty then
      Except.error "No readable JSON records found"
    else
      Except.ok records

/-- Guard of the correction branch of the decision hierarchy. -/
def branchCorrection (c : Config) (m : BeliefMetrics) : Prop :=
  activeDivergence c m ≥ correctionThreshold c

/-- Guard of the low-confidence branch: reached only when the correction
branch did not fire. -/
def branchLowConfidence (c : Config) (m : BeliefMetrics) : Prop :=
  ¬ branchCorrection c m ∧ m.avg_concept_confidence < confidenceThreshold c

/-- Guard of the look-to-disambiguate branch: reached only when the two
earlier branches did not fire. -/
def branchL2d (c : Config) (m : BeliefMetrics) : Prop :=
  ¬ branchCorrection c m ∧
    ¬ m.avg_concept_confidence < confidenceThreshold c ∧
    (l2dEnabled c = true ∧ activeDivergence c m ≥ l2dThreshold c)

/-- Guard of the high-divergence branch: reached only when the three
earlier branches did not fire. -/
def branchHighDivergence (c : Config) (m : BeliefMetrics) : Prop :=
  ¬ branchCorrection c m ∧
    ¬ m.avg_concept_confidence < confidenceThreshold c ∧
    ¬ (l2dEnabled c = true ∧ activeDivergence c m ≥ l2dThreshold c) ∧
    activeDivergence c m ≥ divThreshold c

/-- Guard of the no-action fallthrough: none of the four rules fired. -/
def branchNone (c : Config) (m : BeliefMetrics) : Prop :=
  ¬ branchCorrection c m ∧
    ¬ m.avg_concept_confidence < confidenceThreshold c ∧
    ¬ (l2dEnabled c = true ∧ activeDivergence c m ≥ l2dThreshold c) ∧
    ¬ activeDivergence c m ≥ divThreshold c

/-- A concrete stand-in for `json.loads` on the three texts of the C9
counterexample, consistent with real JSON: the single well-formed line
parses to a dict, while the truncated line and the two-line file text are
invalid JSON and fail. -/
def cexParse (s : String) : Option JVal :=
  if s = "\x7b\"a\": 1\x7d" then Option.some (JVal.dict "a: 1") else Option.none

theorem ratMul_eq (a b : ℚ) : ratMul a b = a * b := by
  rw [ratMul, Rat.mkRat_eq_div]
  push_cast
  rw [← div_mul_div_comm, Rat.num_div_den, Rat.num_div_den]

/-- C2: calling `get_divergence "belief_divergence"` always returns the scalar
field, even when `divergence_metrics` holds a conflicting entry under that
name; any other metric name present in `divergence_metrics` returns that
entry; an absent name (key missing or the mapping missing) falls back to
the scalar; the function is total and always returns a rational. -/
theorem claim_C2 (m : BeliefMetrics) (t : String) (dm : List (String × ℚ)) (v : ℚ)
    (ht : t ≠ "belief_divergence") :
    m.get_divergence "belief_divergence" = m.belief_divergence ∧
    (m.divergence_metrics = Option.some dm → dm.lookup t = Option.some v →
      m.get_divergence t = v) ∧
    (m.divergence_metrics = Option.some dm → dm.lookup t = Option.none →
      m.get_divergence t = m.belief_divergence) ∧
    (m.divergence_metrics = Option.none →
      m.get_divergence t = m.belief_divergence) := by
  refine ⟨by simp [BeliefMetrics.get_divergence], ?_, ?_, ?_⟩
  · intro hdm hv
    have hne : dm ≠ [] := by
      intro h
      rw [h] at hv
      simp [List.lookup] at hv
    simp [BeliefMetrics.get_divergence, ht, hdm, hne, hv]
  · intro hdm hv
    by_cases hne : dm = []
    · simp [BeliefMetrics.get_divergence, ht, hdm, hne]
    · simp [BeliefMetrics.get_divergence, ht, hdm, hne, hv]
  · intro hdm
    simp [BeliefMetrics.get_divergence, ht, hdm]

theorem claim_C2_witness :
    ({ belief_divergence := 2,
       divergence_metrics :=
         Option.some [("belief_divergence", 7), ("concept_js_divergence", 5)] :
       BeliefMetrics }).get_divergence "belief_divergence" = 2 ∧
    ({ belief_divergence := 2,
       divergence_metrics :=
         Option.some [("belief_divergence", 7), ("concept_js_divergence", 5)] :
       BeliefMetrics }).get_divergence "concept_js_divergence" = 5 :=
  ⟨(claim_C2 _ "concept_js_divergence"
      [("belief_divergence", 7), ("concept_js_divergence", 5)] 5 (by decide)).1,
   (claim_C2 _ "concept_js_divergence"
      [("belief_divergence", 7), ("concept_js_divergence", 5)] 5
      (by decide)).2.1 rfl (by decide)⟩

/-- C3: the disabled short-circuit: a stored boolean `false` under
`cbwm_enabled` yields `(none, "CBWM hooks disabled.")` for every metrics
snapshot, and an absent configuration yields `(none, "")`. -/
theorem claim_C3 (conf : Config) (m : BeliefMetrics)
    (h : cfgGet conf "cbwm_enabled" = Option.some (ConfVal.bool false)) :
    choose_belief_action (Option.some conf) m =
      (Option.none, "CBWM hooks disabled.") ∧
    choose_belief_action Option.none m = (Option.none, "") := by
  constructor
  · simp [choose_belief_action, cfgTruthy, h, ConfVal.truthy]
  · rfl

theorem claim_C3_witness :
    choose_belief_action (Option.some [("cbwm_enabled", ConfVal.bool false)])
      { avg_concept_confidence := 0, belief_divergence := 100 } =
      (Option.none, "CBWM hooks disabled.") ∧
    choose_belief_action Option.none
      { avg_concept_confidence := 0, belief_divergence := 100 } =
      (Option.none, "") :=
  claim_C3 [("cbwm_enabled", ConfVal.bool false)]
    { avg_concept_confidence := 0, belief_divergence := 100 } rfl

/-- C4: the mapper `map_detection_to_concepts` returns `([], [])` on a missing
detection regardless of lexicon; a detected type that is in a supplied
lexicon, or any detected type when no lexicon is supplied, maps to
`([type], [1.0])`; a detected type missing from a supplied lexicon maps to
`([type, "unknown"], [1.0, 0.1])`; labels and confidences always have equal
length. -/
theorem claim_C4 (t u : String) (lex lexu : List String) (d : Option String)
    (md : Option (List String)) (hmem : t ∈ lex) (hnot : u ∉ lexu) :
    map_detection_to_concepts Option.none md = ([], []) ∧
    map_detection_to_concepts (Option.some t) Option.none = ([t], [1]) ∧
    map_detection_to_concepts (Option.some u) Option.none = ([u], [1]) ∧
    map_detection_to_concepts (Option.some t) (Option.some lex) = ([t], [1]) ∧
    map_detection_to_concepts (Option.some u) (Option.some lexu) =
      ([u, "unknown"], [1, mkRat 1 10]) ∧
    (map_detection_to_concepts d md).1.length =
      (map_detection_to_concepts d md).2.length := by
  refine ⟨rfl, rfl, rfl, by simp [map_detection_to_concepts, hmem],
    by simp [map_detection_to_concepts, hnot], ?_⟩
  cases d with
  | none => rfl
  | some s =>
    cases md with
    | none => rfl
    | some lexicon =>
      by_cases hs : s ∈ lexicon <;> simp [map_detection_to_concepts, hs]

theorem claim_C4_witness :
    map_detection_to_concepts Option.none (Option.some ["chair"]) = ([], []) ∧
    map_detection_to_concepts (Option.some "chair") Option.none =
      (["chair"], [1]) ∧
    map_detection_to_concepts (Option.some "goblin") Option.none =
      (["goblin"], [1]) ∧
    map_detection_to_concepts (Option.some "chair") (Option.some ["chair"]) =
      (["chair"], [1]) ∧
    map_detection_to_concepts (Option.some "goblin") (Option.some ["chair"]) =
      (["goblin", "unknown"], [1, mkRat 1 10]) ∧
    (map_detection_to_concepts (Option.some "goblin")
        (Option.some ["chair"])).1.length =
      (map_detection_to_concepts (Option.some "goblin")
        (Option.some ["chair"])).2.length :=
  claim_C4 "chair" "goblin" ["chair"] ["chair"] (Option.some "goblin")
    (Option.some ["chair"]) (by decide) (by decide)

/-- C6: every missing option of `choose_belief_action` takes its documented
default: base `divergence_threshold` 0.3, correction threshold
`divergence_threshold * 1.5`, L2D threshold `divergence_threshold * 0.5`,
confidence threshold 0.5, L2D disabled; in particular the all-defaults
configuration resolves to 0.3 / 0.45 / 0.15 / 0.5 / disabled, and absence
of options is never an error. -/
theorem claim_C6 (conf : Config)
    (hd : cfgGet conf "divergence_threshold" = Option.none)
    (hc : cfgGet conf "correction_divergence_threshold" = Option.none)
    (hl : cfgGet conf "l2d_divergence_threshold" = Option.none)
    (hcc : cfgGet conf "concept_confidence_threshold" = Option.none)
    (hle : cfgGet conf "l2d_action_enabled" = Option.none) :
    divThreshold conf = 3 / 10 ∧
    correctionThreshold conf = divThreshold conf * (3 / 2) ∧
    l2dThreshold conf = divThreshold conf * (1 / 2) ∧
    confidenceThreshold conf = 1 / 2 ∧
    l2dEnabled conf = false ∧
    correctionThreshold conf = 9 / 20 ∧
    l2dThreshold conf = 3 / 20 := by
  have hdv : divThreshold conf = 3 / 10 := by
    rw [divThreshold, cfgNum, hd, Rat.mkRat_eq_div]
    norm_num
  have hcv : correctionThreshold conf = divThreshold conf * (3 / 2) := by
    rw [correctionThreshold, cfgNum, hc, ratMul_eq, Rat.mkRat_eq_div]
    norm_num
  have hlv : l2dThreshold conf = divThreshold conf * (1 / 2) := by
    rw [l2dThreshold, cfgNum, hl, ratMul_eq, Rat.mkRat_eq_div]
    norm_num
  refine ⟨hdv, hcv, hlv, ?_, ?_, ?_, ?_⟩
  · rw [confidenceThreshold, cfgNum, hcc, Rat.mkRat_eq_div]
    norm_num
  · rw [l2dEnabled, cfgTruthy, hle]
  · rw [hcv, hdv]; norm_num
  · rw [hlv, hdv]; norm_num

theorem claim_C6_witness :
    divThreshold [] = 3 / 10 ∧
    correctionThreshold [] = divThreshold [] * (3 / 2) ∧
    l2dThreshold [] = divThreshold [] * (1 / 2) ∧
    confidenceThreshold [] = 1 / 2 ∧
    l2dEnabled [] = false ∧
    correctionThreshold [] = 9 / 20 ∧
    l2dThreshold [] = 3 / 20 :=
  claim_C6 [] rfl rfl rfl rfl rfl

/-- C10: the disabled short-circuit triggers on Python falsiness of the
stored `cbwm_enabled` value, not only on the boolean `false`: any stored
value whose truthiness is false (the number 0, the empty string, `None`)
makes `choose_belief_action` return `(none, "CBWM hooks disabled.")` for
every metrics snapshot. -/
theorem claim_C10 (conf : Config) (m : BeliefMetrics) (v : ConfVal)
    (hv : cfgGet conf "cbwm_enabled" = Option.some v)
    (hfalsy : v.truthy = false) :
    choose_belief_action (Option.some conf) m =
      (Option.none, "CBWM hooks disabled.") := by
  simp [choose_belief_action, cfgTruthy, hv, hfalsy]

theorem claim_C10_witness :
    choose_belief_action (Option.some [("cbwm_enabled", ConfVal.num 0)])
      { avg_concept_confidence := 0, belief_divergence := 100 } =
      (Option.none, "CBWM hooks disabled.") ∧
    choose_belief_action (Option.some [("cbwm_enabled", ConfVal.str "")])
      { avg_concept_confidence := 0, belief_divergence := 100 } =
      (Option.none, "CBWM hooks disabled.") ∧
    choose_belief_action (Option.some [("cbwm_enabled", ConfVal.null)])
      { avg_concept_confidence := 0, belief_divergence := 100 } =
      (Option.none, "CBWM hooks disabled.") :=
  ⟨claim_C10 _ _ (ConfVal.num 0) rfl (by decide),
   claim_C10 _ _ (ConfVal.str "") rfl (by decide),
   claim_C10 _ _ ConfVal.null rfl (by decide)⟩

/-- C1: with the hook enabled, `choose_belief_action` evaluates its rules
in fixed priority order with the first match winning: divergence at or
above the correction threshold yields the configured correction action
(default `"CorrectHuman"`); else confidence below the confidence threshold
yields the low-confidence action (default `"AppendObservation"`); else L2D
enabled with divergence at or above the L2D threshold yields the L2D
action (default `"LookToDisambiguate"`); else divergence at or above the
divergence threshold yields the high-divergence action (default
`"AskHuman"`); else `(none, metrics.note)`.  The witness instantiates the
claim's two concrete cases. -/
theorem claim_C1 (conf : Config) (m : BeliefMetrics)
    (henabled : cfgTruthy conf "cbwm_enabled" true = true) :
    (activeDivergence conf m ≥ correctionThreshold conf →
      choose_belief_action (Option.some conf) m =
        (Option.some (cfgVal conf "correction_action" (ConfVal.str "CorrectHuman")),
         reasonCorrection (divergenceMetricType conf) (activeDivergence conf m)
           (correctionThreshold conf))) ∧
    (¬ activeDivergence conf m ≥ correctionThreshold conf →
     m.avg_concept_confidence < confidenceThreshold conf →
      choose_belief_action (Option.some conf) m =
        (Option.some (cfgVal conf "low_confidence_action" (ConfVal.str "AppendObservation")),
         reasonLowConfidence m.avg_concept_confidence (confidenceThreshold conf))) ∧
    (¬ activeDivergence conf m ≥ correctionThreshold conf →
     ¬ m.avg_concept_confidence < confidenceThreshold conf →
     l2dEnabled conf = true →
     activeDivergence conf m ≥ l2dThreshold conf →
      choose_belief_action (Option.some conf) m =
        (Option.some (cfgVal conf "l2d_action" (ConfVal.str "LookToDisambiguate")),
         reasonL2d (divergenceMetricType conf) (activeDivergence conf m)
           (l2dThreshold conf))) ∧
    (¬ activeDivergence conf m ≥ correctionThreshold conf →
     ¬ m.avg_concept_confidence < confidenceThreshold conf →
     ¬ (l2dEnabled conf = true ∧ activeDivergence conf m ≥ l2dThreshold conf) →
     activeDivergence conf m ≥ divThreshold conf →
      choose_belief_action (Option.some conf) m =
        (Option.some (cfgVal conf "high_divergence_action" (ConfVal.str "AskHuman")),
         reasonHighDivergence (divergenceMetricType conf) (activeDivergence conf m)
           (divThreshold conf))) ∧
    (¬ activeDivergence conf m ≥ correctionThreshold conf →
     ¬ m.avg_concept_confidence < confidenceThreshold conf →
     ¬ (l2dEnabled conf = true ∧ activeDivergence conf m ≥ l2dThreshold conf) →
     ¬ activeDivergence conf m ≥ divThreshold conf →
      choose_belief_action (Option.some conf) m = (Option.none, m.note)) := by
  refine ⟨?_, ?_, ?_, ?_, ?_⟩
  · intro h1
    simp [choose_belief_action, henabled, h1]
  · intro h1 h2
    simp [choose_belief_action, henabled, h1, h2]
  · intro h1 h2 h3 h4
    simp [choose_belief_action, henabled, h1, h2, h3, h4]
  · intro h1 h2 h3 h4
    simp [choose_belief_action, henabled, h1, h2, h3, h4]
  · intro h1 h2 h3 h4
    simp [choose_belief_action, henabled, h1, h2, h3, h4]

theorem claim_C1_witness :
    choose_belief_action (Option.some [])
      { avg_concept_confidence := mkRat 9 10, belief_divergence := mkRat 9 10 } =
      (Option.some (ConfVal.str "CorrectHuman"),
       reasonCorrection "belief_divergence" (mkRat 9 10) (mkRat 9 20)) ∧
    choose_belief_action (Option.some [])
      { avg_concept_confidence := mkRat 2 5, belief_divergence := 0 } =
      (Option.some (ConfVal.str "AppendObservation"),
       reasonLowConfidence (mkRat 2 5) (mkRat 1 2)) :=
  ⟨(claim_C1 []
      { avg_concept_confidence := mkRat 9 10, belief_divergence := mkRat 9 10 }
      rfl).1 (by decide),
   ((claim_C1 []
      { avg_concept_confidence := mkRat 2 5, belief_divergence := 0 }
      rfl).2.1 (by decide) (by decide))⟩

/-- C7: the hook `choose_belief_action` is deterministic: equal configuration and
equal metrics give equal `(action, reason)` results (the function has no
hidden state or randomness), and for every enabled input exactly one
branch of the decision hierarchy applies: the five branch guards are
exhaustive and pairwise mutually exclusive. -/
theorem claim_C7 (c₁ c₂ : Option Config) (m₁ m₂ : BeliefMetrics)
    (conf : Config) (m : BeliefMetrics) (hc : c₁ = c₂) (hm : m₁ = m₂) :
    choose_belief_action c₁ m₁ = choose_belief_action c₂ m₂ ∧
    (branchCorrection conf m ∨ branchLowConfidence conf m ∨ branchL2d conf m ∨
      branchHighDivergence conf m ∨ branchNone conf m) ∧
    ¬ (branchCorrection conf m ∧ branchLowConfidence conf m) ∧
    ¬ (branchCorrection conf m ∧ branchL2d conf m) ∧
    ¬ (branchCorrection conf m ∧ branchHighDivergence conf m) ∧
    ¬ (branchCorrection conf m ∧ branchNone conf m) ∧
    ¬ (branchLowConfidence conf m ∧ branchL2d conf m) ∧
    ¬ (branchLowConfidence conf m ∧ branchHighDivergence conf m) ∧
    ¬ (branchLowConfidence conf m ∧ branchNone conf m) ∧
    ¬ (branchL2d conf m ∧ branchHighDivergence conf m) ∧
    ¬ (branchL2d conf m ∧ branchNone conf m) ∧
    ¬ (branchHighDivergence conf m ∧ branchNone conf m) := by
  subst hc hm
  refine ⟨rfl, ?_⟩
  simp only [branchCorrection, branchLowConfidence, branchL2d,
    branchHighDivergence, branchNone]
  generalize (activeDivergence conf m ≥ correctionThreshold conf) = P1
  generalize (m.avg_concept_confidence < confidenceThreshold conf) = P2
  generalize (l2dEnabled conf = true ∧ activeDivergence conf m ≥ l2dThreshold conf) = P3
  generalize (activeDivergence conf m ≥ divThreshold conf) = P4
  tauto

theorem claim_C7_witness :
    choose_belief_action (Option.some []) { belief_divergence := mkRat 1 2 } =
      choose_belief_action (Option.some []) { belief_divergence := mkRat 1 2 } ∧
    (branchCorrection [] { belief_divergence := mkRat 1 2 } ∨
      branchLowConfidence [] { belief_divergence := mkRat 1 2 } ∨
      branchL2d [] { belief_divergence := mkRat 1 2 } ∨
      branchHighDivergence [] { belief_divergence := mkRat 1 2 } ∨
      branchNone [] { belief_divergence := mkRat 1 2 }) ∧
    ¬ (branchCorrection [] { belief_divergence := mkRat 1 2 } ∧
        branchLowConfidence [] { belief_divergence := mkRat 1 2 }) ∧
    ¬ (branchCorrection [] { belief_divergence := mkRat 1 2 } ∧
        branchL2d [] { belief_divergence := mkRat 1 2 }) ∧
    ¬ (branchCorrection [] { belief_divergence := mkRat 1 2 } ∧
        branchHighDivergence [] { belief_divergence := mkRat 1 2 }) ∧
    ¬ (branchCorrection [] { belief_divergence := mkRat 1 2 } ∧
        branchNone [] { belief_divergence := mkRat 1 2 }) ∧
    ¬ (branchLowConfidence [] { belief_divergence := mkRat 1 2 } ∧
        branchL2d [] { belief_divergence := mkRat 1 2 }) ∧
    ¬ (branchLowConfidence [] { belief_divergence := mkRat 1 2 } ∧
        branchHighDivergence [] { belief_divergence := mkRat 1 2 }) ∧
    ¬ (branchLowConfidence [] { belief_divergence := mkRat 1 2 } ∧
        branchNone [] { belief_divergence := mkRat 1 2 }) ∧
    ¬ (branchL2d [] { belief_divergence := mkRat 1 2 } ∧
        branchHighDivergence [] { belief_divergence := mkRat 1 2 }) ∧
    ¬ (branchL2d [] { belief_divergence := mkRat 1 2 } ∧
        branchNone [] { belief_divergence := mkRat 1 2 }) ∧
    ¬ (branchHighDivergence [] { belief_divergence := mkRat 1 2 } ∧
        branchNone [] { belief_divergence := mkRat 1 2 }) :=
  claim_C7 (Option.some []) (Option.some []) { belief_divergence := mkRat 1 2 }
    { belief_divergence := mkRat 1 2 } [] { belief_divergence := mkRat 1 2 }
    rfl rfl

theorem str_data_append (a b : String) : (a ++ b).data = a.data ++ b.data := rfl

/-- C8: whenever `choose_belief_action` returns a non-null action, the
reason string contains the name of the metric being compared and both
compared values formatted to two decimal places; the reason is one of the
four branch templates applied to the actually compared values. -/
theorem claim_C8 (conf : Config) (m : BeliefMetrics) (a : ConfVal) (r : String)
    (h : choose_belief_action (Option.some conf) m = (Option.some a, r)) :
    ∃ nm v₁ v₂,
      nm.data <:+: r.data ∧
      (fmt2 v₁).data <:+: r.data ∧
      (fmt2 v₂).data <:+: r.data ∧
      ((nm = divergenceMetricType conf ∧ v₁ = activeDivergence conf m ∧
          v₂ = correctionThreshold conf ∧ r = reasonCorrection nm v₁ v₂) ∨
       (nm = "Average concept confidence" ∧ v₁ = m.avg_concept_confidence ∧
          v₂ = confidenceThreshold conf ∧ r = reasonLowConfidence v₁ v₂) ∨
       (nm = divergenceMetricType conf ∧ v₁ = activeDivergence conf m ∧
          v₂ = l2dThreshold conf ∧ r = reasonL2d nm v₁ v₂) ∨
       (nm = divergenceMetricType conf ∧ v₁ = activeDivergence conf m ∧
          v₂ = divThreshold conf ∧ r = reasonHighDivergence nm v₁ v₂)) := by
  cases hb : cfgTruthy conf "cbwm_enabled" true with
  | false => simp [choose_belief_action, hb] at h
  | true =>
    by_cases h1 : activeDivergence conf m ≥ correctionThreshold conf
    · have hval : choose_belief_action (Option.some conf) m =
          (Option.some (cfgVal conf "correction_action" (ConfVal.str "CorrectHuman")),
           reasonCorrection (divergenceMetricType conf) (activeDivergence conf m)
             (correctionThreshold conf)) := by
        simp [choose_belief_action, hb, h1]
      rw [hval] at h
      have hr : reasonCorrection (divergenceMetricType conf)
          (activeDivergence conf m) (correctionThreshold conf) = r :=
        congrArg Prod.snd h
      subst hr
      refine ⟨divergenceMetricType conf, activeDivergence conf m,
        correctionThreshold conf, ?_, ?_, ?_, Or.inl ⟨rfl, rfl, rfl, rfl⟩⟩
      · exact ⟨"Belief divergence (".data,
          (") " ++ fmt2 (activeDivergence conf m) ++
            " exceeds correction threshold " ++
            fmt2 (correctionThreshold conf) ++ ".").data,
          by simp [reasonCorrection, str_data_append, List.append_assoc]⟩
      · exact ⟨("Belief divergence (" ++ divergenceMetricType conf ++ ") ").data,
          (" exceeds correction threshold " ++
            fmt2 (correctionThreshold conf) ++ ".").data,
          by simp [reasonCorrection, str_data_append, List.append_assoc]⟩
      · exact ⟨("Belief divergence (" ++ divergenceMetricType conf ++ ") " ++
            fmt2 (activeDivergence conf m) ++
            " exceeds correction threshold ").data,
          (".").data,
          by simp [reasonCorrection, str_data_append, List.append_assoc]⟩
    · by_cases h2 : m.avg_concept_confidence < confidenceThreshold conf
      · have hval : choose_belief_action (Option.some conf) m =
            (Option.some (cfgVal conf "low_confidence_action"
               (ConfVal.str "AppendObservation")),
             reasonLowConfidence m.avg_concept_confidence
               (confidenceThreshold conf)) := by
          simp [choose_belief_action, hb, h1, h2]
        rw [hval] at h
        have hr : reasonLowConfidence m.avg_concept_confidence
            (confidenceThreshold conf) = r :=
          congrArg Prod.snd h
        subst hr
        refine ⟨"Average concept confidence", m.avg_concept_confidence,
          confidenceThreshold conf, ?_, ?_, ?_,
          Or.inr (Or.inl ⟨rfl, rfl, rfl, rfl⟩)⟩
        · exact ⟨[], (" " ++ fmt2 m.avg_concept_confidence ++
              " is below threshold " ++ fmt2 (confidenceThreshold conf) ++ ".").data,
            by simp [reasonLowConfidence, str_data_append, List.append_assoc]⟩
        · exact ⟨"Average concept confidence ".data,
            (" is below threshold " ++ fmt2 (confidenceThreshold conf) ++ ".").data,
            by simp [reasonLowConfidence, str_data_append, List.append_assoc]⟩
        · exact ⟨("Average concept confidence " ++
              fmt2 m.avg_concept_confidence ++ " is below threshold ").data,
            (".").data,
            by simp [reasonLowConfidence, str_data_append, List.append_assoc]⟩
      · by_cases h3 : l2dEnabled conf = true ∧
            activeDivergence conf m ≥ l2dThreshold conf
        · have hval : choose_belief_action (Option.some conf) m =
              (Option.some (cfgVal conf "l2d_action"
                 (ConfVal.str "LookToDisambiguate")),
               reasonL2d (divergenceMetricType conf) (activeDivergence conf m)
                 (l2dThreshold conf)) := by
            simp only [choose_belief_action, hb]
            rw [if_neg (by simp), if_neg h1, if_neg h2, if_pos h3]
          rw [hval] at h
          have hr : reasonL2d (divergenceMetricType conf)
              (activeDivergence conf m) (l2dThreshold conf) = r :=
            congrArg Prod.snd h
          subst hr
          refine ⟨divergenceMetricType conf, activeDivergence conf m,
            l2dThreshold conf, ?_, ?_, ?_,
            Or.inr (Or.inr (Or.inl ⟨rfl, rfl, rfl, rfl⟩))⟩
          · exact ⟨"Divergence (".data,
              (") " ++ fmt2 (activeDivergence conf m) ++
                " exceeds L2D threshold " ++ fmt2 (l2dThreshold conf) ++ ".").data,
              by simp [reasonL2d, str_data_append, List.append_assoc]⟩
          · exact ⟨("Divergence (" ++ divergenceMetricType conf ++ ") ").data,
              (" exceeds L2D threshold " ++ fmt2 (l2dThreshold conf) ++ ".").data,
              by simp [reasonL2d, str_data_append, List.append_assoc]⟩
          · exact ⟨("Divergence (" ++ divergenceMetricType conf ++ ") " ++
                fmt2 (activeDivergence conf m) ++ " exceeds L2D threshold ").data,
              (".").data,
              by simp [reasonL2d, str_data_append, List.append_assoc]⟩
        · by_cases h4 : activeDivergence conf m ≥ divThreshold conf
          · have hval : choose_belief_action (Option.some conf) m =
                (Option.some (cfgVal conf "high_divergence_action"
                   (ConfVal.str "AskHuman")),
                 reasonHighDivergence (divergenceMetricType conf)
                   (activeDivergence conf m) (divThreshold conf)) := by
              simp only [choose_belief_action, hb]
              rw [if_neg (by simp), if_neg h1, if_neg h2, if_neg h3, if_pos h4]
            rw [hval] at h
            have hr : reasonHighDivergence (divergenceMetricType conf)
                (activeDivergence conf m) (divThreshold conf) = r :=
              congrArg Prod.snd h
            subst hr
            refine ⟨divergenceMetricType conf, activeDivergence conf m,
              divThreshold conf, ?_, ?_, ?_,
              Or.inr (Or.inr (Or.inr ⟨rfl, rfl, rfl, rfl⟩))⟩
            · exact ⟨"Belief divergence (".data,
                (") " ++ fmt2 (activeDivergence conf m) ++
                  " exceeds threshold " ++ fmt2 (divThreshold conf) ++ ".").data,
                by simp [reasonHighDivergence, str_data_append, List.append_assoc]⟩
            · exact ⟨("Belief divergence (" ++ divergenceMetricType conf ++ ") ").data,
                (" exceeds threshold " ++ fmt2 (divThreshold conf) ++ ".").data,
                by simp [reasonHighDivergence, str_data_append, List.append_assoc]⟩
            · exact ⟨("Belief divergence (" ++ divergenceMetricType conf ++ ") " ++
                  fmt2 (activeDivergence conf m) ++ " exceeds threshold ").data,
                (".").data,
                by simp [reasonHighDivergence, str_data_append, List.append_assoc]⟩
          · have hval : choose_belief_action (Option.some conf) m =
                (Option.none, m.note) := by
              simp only [choose_belief_action, hb]
              rw [if_neg (by simp), if_neg h1, if_neg h2, if_neg h3, if_neg h4]
            rw [hval] at h
            exact absurd (congrArg Prod.fst h) (by simp)

theorem claim_C8_witness :
    ∃ nm v₁ v₂,
      nm.data <:+:
        (reasonCorrection "belief_divergence" (mkRat 9 10) (mkRat 9 20)).data ∧
      (fmt2 v₁).data <:+:
        (reasonCorrection "belief_divergence" (mkRat 9 10) (mkRat 9 20)).data ∧
      (fmt2 v₂).data <:+:
        (reasonCorrection "belief_divergence" (mkRat 9 10) (mkRat 9 20)).data ∧
      ((nm = divergenceMetricType [] ∧
          v₁ = activeDivergence []
            { avg_concept_confidence := mkRat 9 10,
              belief_divergence := mkRat 9 10 } ∧
          v₂ = correctionThreshold [] ∧
          reasonCorrection "belief_divergence" (mkRat 9 10) (mkRat 9 20) =
            reasonCorrection nm v₁ v₂) ∨
       (nm = "Average concept confidence" ∧
          v₁ = ({ avg_concept_confidence := mkRat 9 10,
                  belief_divergence := mkRat 9 10 :
                  BeliefMetrics }).avg_concept_confidence ∧
          v₂ = confidenceThreshold [] ∧
          reasonCorrection "belief_divergence" (mkRat 9 10) (mkRat 9 20) =
            reasonLowConfidence v₁ v₂) ∨
       (nm = divergenceMetricType [] ∧
          v₁ = activeDivergence []
            { avg_concept_confidence := mkRat 9 10,
              belief_divergence := mkRat 9 10 } ∧
          v₂ = l2dThreshold [] ∧
          reasonCorrection "belief_divergence" (mkRat 9 10) (mkRat 9 20) =
            reasonL2d nm v₁ v₂) ∨
       (nm = divergenceMetricType [] ∧
          v₁ = activeDivergence []
            { avg_concept_confidence := mkRat 9 10,
              belief_divergence := mkRat 9 10 } ∧
          v₂ = divThreshold [] ∧
          reasonCorrection "belief_divergence" (mkRat 9 10) (mkRat 9 20) =
            reasonHighDivergence nm v₁ v₂)) :=
  claim_C8 []
    { avg_concept_confidence := mkRat 9 10, belief_divergence := mkRat 9 10 }
    (ConfVal.str "CorrectHuman")
    (reasonCorrection "belief_divergence" (mkRat 9 10) (mkRat 9 20))
    (by decide)

theorem annotateObj_name (n : String) (L : List String) (K : List ℚ)
    (o : ObjEntity) : (annotateObj n L K o).name = o.name := by
  unfold annotateObj
  split <;> rfl

theorem annotateObj_idem (n : String) (L : List String) (K : List ℚ)
    (o : ObjEntity) :
    annotateObj n L K (annotateObj n L K o) = annotateObj n L K o := by
  by_cases h : o.name = n <;> simp [annotateObj, h]

theorem aouca_snd (g : WorldGraph) (n : String) (L : List String) (K : List ℚ) :
    ( add_or_update_concept_annotation g n L K).2 = ⟨n⟩ := by
  simp only [ add_or_update_concept_annotation]
  split <;> rfl

theorem aouca_objects (g : WorldGraph) (n : String) (L : List String)
    (K : List ℚ) :
    ( add_or_update_concept_annotation g n L K).1.objects =
      g.objects.map (annotateObj n L K) := by
  by_cases hmem : (⟨n⟩ : ConceptNode) ∈ g.concepts <;>
    simp [ add_or_update_concept_annotation, hmem]

theorem aouca_concepts (g : WorldGraph) (n : String) (L : List String)
    (K : List ℚ) :
    ( add_or_update_concept_annotation g n L K).1.concepts =
      if (⟨n⟩ : ConceptNode) ∈ g.concepts then g.concepts
      else g.concepts ++ [⟨n⟩] := by
  by_cases hmem : (⟨n⟩ : ConceptNode) ∈ g.concepts <;>
    simp [ add_or_update_concept_annotation, hmem]

theorem aouca_edges (g : WorldGraph) (n : String) (L : List String)
    (K : List ℚ) :
    ( add_or_update_concept_annotation g n L K).1.edges =
      if (⟨n⟩ : ConceptNode) ∈ g.concepts then g.edges
      else g.edges ++ [(⟨n⟩, n, "describes")] := by
  by_cases hmem : (⟨n⟩ : ConceptNode) ∈ g.concepts <;>
    simp [ add_or_update_concept_annotation, hmem]

theorem mem_aouca_concepts (g : WorldGraph) (n : String) (L : List String)
    (K : List ℚ) :
    (⟨n⟩ : ConceptNode) ∈ ( add_or_update_concept_annotation g n L K).1.concepts := by
  rw [aouca_concepts]
  by_cases hmem : (⟨n⟩ : ConceptNode) ∈ g.concepts <;> simp [hmem]

theorem aouca_wf (g : WorldGraph) (n : String) (L : List String) (K : List ℚ)
    (hwf : WGWf g) : WGWf ( add_or_update_concept_annotation g n L K).1 := by
  constructor
  · rw [aouca_concepts]
    by_cases hmem : (⟨n⟩ : ConceptNode) ∈ g.concepts <;>
      simp [hmem, hwf.1, List.nodup_append]
  · rw [aouca_edges, aouca_concepts]
    by_cases hmem : (⟨n⟩ : ConceptNode) ∈ g.concepts <;>
      simp [hmem, hwf.2]

theorem aouca_of_mem (g : WorldGraph) (n : String) (L : List String)
    (K : List ℚ) (hmem : (⟨n⟩ : ConceptNode) ∈ g.concepts) :
    add_or_update_concept_annotation g n L K =
      ({ g with objects := g.objects.map (annotateObj n L K) }, ⟨n⟩) := by
  simp [ add_or_update_concept_annotation, hmem]

/-- C5: annotating the same entity twice stores exactly the second call's
labels and confidences (strict overwrite), returns the identical Concept
node on both calls, keeps the graph well-formed with exactly one Concept
node for the entity and a single directed `"describes"` edge from it, and
a second call with identical arguments leaves the graph unchanged. -/
theorem claim_C5 (g : WorldGraph) (n : String) (L₁ L₂ : List String)
    (K₁ K₂ : List ℚ) (hwf : WGWf g)
    (hobj : (g.objects.find? (fun o => o.name == n)).isSome = true) :
    ( add_or_update_concept_annotation g n L₁ K₁).2 =
      ( add_or_update_concept_annotation
        ( add_or_update_concept_annotation g n L₁ K₁).1 n L₂ K₂).2 ∧
    (( add_or_update_concept_annotation
        ( add_or_update_concept_annotation g n L₁ K₁).1 n L₂ K₂).1.objects.find?
      (fun o => o.name == n)) =
      Option.some ⟨n, Option.some L₂, Option.some K₂⟩ ∧
    WGWf ( add_or_update_concept_annotation
      ( add_or_update_concept_annotation g n L₁ K₁).1 n L₂ K₂).1 ∧
    List.countP (fun c => decide (c = (⟨n⟩ : ConceptNode)))
      ( add_or_update_concept_annotation
        ( add_or_update_concept_annotation g n L₁ K₁).1 n L₂ K₂).1.concepts = 1 ∧
    List.countP (fun e => decide (e = ((⟨n⟩ : ConceptNode), n, "describes")))
      ( add_or_update_concept_annotation
        ( add_or_update_concept_annotation g n L₁ K₁).1 n L₂ K₂).1.edges = 1 ∧
    add_or_update_concept_annotation
        ( add_or_update_concept_annotation g n L₁ K₁).1 n L₁ K₁ =
      (( add_or_update_concept_annotation g n L₁ K₁).1,
       ( add_or_update_concept_annotation g n L₁ K₁).2) := by
  have hwf₂ : WGWf ( add_or_update_concept_annotation
      ( add_or_update_concept_annotation g n L₁ K₁).1 n L₂ K₂).1 :=
    aouca_wf _ n L₂ K₂ (aouca_wf g n L₁ K₁ hwf)
  have hcount : List.countP (fun c => decide (c = (⟨n⟩ : ConceptNode)))
      ( add_or_update_concept_annotation
        ( add_or_update_concept_annotation g n L₁ K₁).1 n L₂ K₂).1.concepts = 1 :=
    List.count_eq_one_of_mem hwf₂.1 (mem_aouca_concepts _ n L₂ K₂)
  refine ⟨by rw [aouca_snd, aouca_snd], ?_, hwf₂, hcount, ?_, ?_⟩
  · have hobjs : ( add_or_update_concept_annotation
        ( add_or_update_concept_annotation g n L₁ K₁).1 n L₂ K₂).1.objects =
        g.objects.map (annotateObj n L₂ K₂ ∘ annotateObj n L₁ K₁) := by
      rw [aouca_objects, aouca_objects, List.map_map]
    obtain ⟨o₀, ho₀⟩ := Option.isSome_iff_exists.mp hobj
    have hname : o₀.name = n := by
      have := List.find?_some ho₀
      simpa using this
    rw [hobjs, List.find?_map]
    have hpred : ((fun o : ObjEntity => o.name == n) ∘
        (annotateObj n L₂ K₂ ∘ annotateObj n L₁ K₁)) =
        fun o : ObjEntity => o.name == n := by
      funext o
      simp [Function.comp, annotateObj_name]
    rw [hpred, ho₀]
    simp [Function.comp, annotateObj, hname]
  · have hinj : Function.Injective
        (fun c : ConceptNode => (c, c.entity_name, "describes")) :=
      fun a b hab => congrArg Prod.fst hab
    rw [hwf₂.2, List.countP_map]
    have hpred : ((fun e : ConceptNode × String × String =>
        decide (e = ((⟨n⟩ : ConceptNode), n, "describes"))) ∘
        (fun c : ConceptNode => (c, c.entity_name, "describes"))) =
        fun c : ConceptNode => decide (c = (⟨n⟩ : ConceptNode)) := by
      funext c
      simp only [Function.comp]
      apply decide_eq_decide.mpr
      constructor
      · intro h
        exact congrArg Prod.fst h
      · intro h
        subst h
        rfl
    rw [hpred]
    exact hcount
  · have hmem₁ : (⟨n⟩ : ConceptNode) ∈
        ( add_or_update_concept_annotation g n L₁ K₁).1.concepts :=
      mem_aouca_concepts g n L₁ K₁
    have hobjeq : ( add_or_update_concept_annotation g n L₁ K₁).1.objects.map
        (annotateObj n L₁ K₁) =
        ( add_or_update_concept_annotation g n L₁ K₁).1.objects := by
      rw [aouca_objects, List.map_map]
      have hfn : annotateObj n L₁ K₁ ∘ annotateObj n L₁ K₁ =
          annotateObj n L₁ K₁ :=
        funext (annotateObj_idem n L₁ K₁)
      rw [hfn]
    rw [aouca_of_mem _ n L₁ K₁ hmem₁, hobjeq, aouca_snd]

theorem claim_C5_witness :
    ( add_or_update_concept_annotation
      { objects := [⟨"obj", Option.none, Option.none⟩], concepts := [],
        edges := [] } "obj" ["cup"] [mkRat 4 5]).2 =
      ( add_or_update_concept_annotation
        ( add_or_update_concept_annotation
          { objects := [⟨"obj", Option.none, Option.none⟩], concepts := [],
            edges := [] } "obj" ["cup"] [mkRat 4 5]).1
        "obj" ["cup"] [mkRat 9 10]).2 ∧
    (( add_or_update_concept_annotation
        ( add_or_update_concept_annotation
          { objects := [⟨"obj", Option.none, Option.none⟩], concepts := [],
            edges := [] } "obj" ["cup"] [mkRat 4 5]).1
        "obj" ["cup"] [mkRat 9 10]).1.objects.find?
      (fun o => o.name == "obj")) =
      Option.some ⟨"obj", Option.some ["cup"], Option.some [mkRat 9 10]⟩ ∧
    WGWf ( add_or_update_concept_annotation
      ( add_or_update_concept_annotation
        { objects := [⟨"obj", Option.none, Option.none⟩], concepts := [],
          edges := [] } "obj" ["cup"] [mkRat 4 5]).1
      "obj" ["cup"] [mkRat 9 10]).1 ∧
    List.countP (fun c => decide (c = (⟨"obj"⟩ : ConceptNode)))
      ( add_or_update_concept_annotation
        ( add_or_update_concept_annotation
          { objects := [⟨"obj", Option.none, Option.none⟩], concepts := [],
            edges := [] } "obj" ["cup"] [mkRat 4 5]).1
        "obj" ["cup"] [mkRat 9 10]).1.concepts = 1 ∧
    List.countP (fun e => decide (e = ((⟨"obj"⟩ : ConceptNode), "obj", "describes")))
      ( add_or_update_concept_annotation
        ( add_or_update_concept_annotation
          { objects := [⟨"obj", Option.none, Option.none⟩], concepts := [],
            edges := [] } "obj" ["cup"] [mkRat 4 5]).1
        "obj" ["cup"] [mkRat 9 10]).1.edges = 1 ∧
    add_or_update_concept_annotation
        ( add_or_update_concept_annotation
          { objects := [⟨"obj", Option.none, Option.none⟩], concepts := [],
            edges := [] } "obj" ["cup"] [mkRat 4 5]).1
        "obj" ["cup"] [mkRat 4 5] =
      (( add_or_update_concept_annotation
          { objects := [⟨"obj", Option.none, Option.none⟩], concepts := [],
            edges := [] } "obj" ["cup"] [mkRat 4 5]).1,
       ( add_or_update_concept_annotation
          { objects := [⟨"obj", Option.none, Option.none⟩], concepts := [],
            edges := [] } "obj" ["cup"] [mkRat 4 5]).2) :=
  claim_C5
    { objects := [⟨"obj", Option.none, Option.none⟩], concepts := [],
      edges := [] }
    "obj" ["cup"] ["cup"] [mkRat 4 5] [mkRat 9 10]
    ⟨List.nodup_nil, rfl⟩ rfl

/-- Equation of `iterGo` on the empty line list. -/
theorem iterGo_nil (parse : String → Option JVal) (whole : String) :
    iterGo parse whole [] = [] := rfl

/-- Equation of `iterGo` on a line followed by the rest of the file. -/
theorem iterGo_cons (parse : String → Option JVal) (whole : String)
    (line : String) (rest : List String) :
    iterGo parse whole (line :: rest) =
      if pyStrip line = "" then iterGo parse whole rest
      else
        match parse (pyStrip line) with
        | Option.some v => v :: iterGo parse whole rest
        | Option.none =>
          match parse whole with
          | Option.some payload => extract_payload payload
          | Option.none => [] := rfl

/-- C9 counterexample: the reader does not skip just the malformed line and
continue: after a malformed first line and a failed whole-file retry the
remaining lines are never read (`json.load` has already consumed the
stream), so a well-formed record on the second line is dropped and the file
yields nothing, contradicting per-line skipping. -/
theorem claim_C9_counterexample :
    cexParse "\x7b\"a\": 1\x7d" = Option.some (JVal.dict "a: 1") ∧
    iter_file_records cexParse ["\x7bbad", "\x7b\"a\": 1\x7d"]
      "\x7bbad\n\x7b\"a\": 1\x7d" = [] ∧
    JVal.dict "a: 1" ∉
      iter_file_records cexParse ["\x7bbad", "\x7b\"a\": 1\x7d"]
        "\x7bbad\n\x7b\"a\": 1\x7d" :=
  ⟨rfl, rfl, List.not_mem_nil _⟩

/-- C9 (amended): on the first malformed non-blank line the reader attempts
a best-effort whole-file parse; if it succeeds the file contributes the
records parsed so far followed by the whole-file payload records and line
reading stops, and if it fails the remainder of the file — including any
well-formed lines — is skipped; and when the collected files yield no
records at all, `main` raises a hard `ValueError` instead of silently
producing an empty result. -/
theorem claim_C9 (parse : String → Option JVal) (pre : List String)
    (bad : String) (rest : List String) (whole : String)
    (files : List (List String × String))
    (hpre : ∀ l ∈ pre, pyStrip l = "" ∨ (parse (pyStrip l)).isSome)
    (hbad : pyStrip bad ≠ "") (hbadp : parse (pyStrip bad) = Option.none)
    (hfiles : files ≠ []) (hempty : collect_records parse files = []) :
    iter_file_records parse (pre ++ bad :: rest) whole =
      pre.filterMap
        (fun l => if pyStrip l = "" then Option.none else parse (pyStrip l)) ++
        (match parse whole with
         | Option.some payload => extract_payload payload
         | Option.none => []) ∧
    main_collect parse files = Except.error "No readable JSON records found" := by
  constructor
  · induction pre with
    | nil =>
      simp [iter_file_records, iterGo_cons, hbad, hbadp]
    | cons l pre ih =>
      have htail : ∀ x ∈ pre, pyStrip x = "" ∨ (parse (pyStrip x)).isSome :=
        fun x hx => hpre x (List.mem_cons_of_mem l hx)
      have hstep := ih htail
      rw [iter_file_records] at hstep
      by_cases hblank : pyStrip l = ""
      · simp [List.cons_append, iter_file_records, iterGo_cons, hblank, hstep]
      · have hsome : (parse (pyStrip l)).isSome :=
          (hpre l (List.mem_cons_self l pre)).resolve_left hblank
        obtain ⟨v, hv⟩ := Option.isSome_iff_exists.mp hsome
        simp [List.cons_append, iter_file_records, iterGo_cons, hblank, hv,
          hstep]
  · have hne : files.isEmpty = false := by
      cases files with
      | nil => exact absurd rfl hfiles
      | cons f fs => rfl
    simp [main_collect, hne, hempty]

theorem claim_C9_witness :
    iter_file_records cexParse
        (["\x7b\"a\": 1\x7d"] ++ "\x7bbad" :: []) "\x7b\"a\": 1\x7d\n\x7bbad" =
      ["\x7b\"a\": 1\x7d"].filterMap
        (fun l => if pyStrip l = "" then Option.none else cexParse (pyStrip l)) ++
        (match cexParse "\x7b\"a\": 1\x7d\n\x7bbad" with
         | Option.some payload => extract_payload payload
         | Option.none => []) ∧
    main_collect cexParse [(["x"], "y")] =
      Except.error "No readable JSON records found" :=
  claim_C9 cexParse ["\x7b\"a\": 1\x7d"] "\x7bbad" [] "\x7b\"a\": 1\x7d\n\x7bbad"
    [(["x"], "y")]
    (by intro l hl
        rw [List.mem_singleton] at hl
        subst hl
        right
        rfl)
    (by decide) rfl (List.cons_ne_nil _ _) rfl
